import Mathlib

/-!
Verification of the `@outboundiq/nextjs` integration package.

This file gives a shallow embedding, in Lean 4, of the package's core logic:
the request-scoped context store (`src/context/request-context.ts`), the
middleware context injector and header extractor (`src/middleware.ts`), the
tracking-client facade and the `trackFetch` / axios-interceptor adapters
(`src/edge.ts`), and the body-truncation helper shared by both builds.

Modelling conventions:
* TypeScript nullable values (`T | null | undefined`) become `Option T`.
* JavaScript string truthiness (`null`, `undefined` and `""` are falsy) is
  made explicit through `strTruthy` / `jsStrOr`.
* Mutable module state (the facade's `isInitialized` flag, the external
  client handle) is threaded explicitly as a `FacadeState` value; calls to
  the external ingestion client's `init` are logged in that state.
* Platform and external-library primitives that the package merely calls
  (`fetch`, `performance.now`, `JSON.stringify`/`JSON.parse`,
  `@outbound_iq/core`'s `sanitizeHeaders`/`safeStringify`) are not part of
  the repository; they are modelled as parameters (the fetch outcome, the
  clock readings) or at the JSON-value level (serialization), as documented
  at each definition.
-/

namespace OutboundIQ

/-- JavaScript truthiness of a nullable string: `null`/`undefined` and the
empty string are falsy. -/
def strTruthy : Option String → Bool
  | none => false
  | some s => !s.isEmpty

/-- JavaScript `a || d` for a nullable string `a` and a default string `d`:
returns `a` when it is truthy, otherwise `d`. -/
def jsStrOr (a : Option String) (d : String) : String :=
  match a with
  | some s => if s.isEmpty then d else s
  | none => d

/-- JavaScript `a || b` for two nullable strings: the first truthy operand,
or `null` when both are falsy. -/
def jsStrOrOpt (a b : Option String) : Option String :=
  if strTruthy a then a else if strTruthy b then b else none

/-- Lookup in a plain-object header map (`headers.get(name)`); keys are
assumed already normalized to lower case, as the platform `Headers` class
does. -/
def headersGet (hs : List (String × String)) (k : String) : Option String :=
  (hs.find? (fun p => p.1 == k)).map Prod.snd

/-- `headers.has(name)` on a plain-object header map. -/
def headersHas (hs : List (String × String)) (k : String) : Bool :=
  (headersGet hs k).isSome

/-- `s.startsWith(p)`, at the character-list level (the platform
`startsWith` on code units). -/
def strStartsWith (s p : String) : Bool :=
  s.data.take p.data.length == p.data

/-- JSON values, the image of `JSON.stringify`/`JSON.parse`.  Numbers are
restricted to integers, which covers every value the package itself puts
into a serialized context (strings and nulls only). -/
inductive Json where
  | null
  | bool (b : Bool)
  | num (n : Int)
  | str (s : String)
  | arr (elems : List Json)
  | obj (fields : List (String × Json))

/-- The `context` discriminator of a `UserContext`
(`'anonymous' | 'authenticated' | 'api'` in `@outbound_iq/core`). -/
inductive CtxType where
  | anonymous
  | authenticated
  | api
deriving DecidableEq

/-- `UserContext` from `@outbound_iq/core`: `userId: string | null`,
optional `userType`, the `context` discriminator, and an optional
`metadata` record of opaque JSON values. -/
structure UserContext where
  userId : Option String
  userType : Option String := none
  context : CtxType
  metadata : Option (List (String × Json)) := none

/-- String rendering of the `context` discriminator, as it appears in
serialized JSON. -/
def ctxTypeStr : CtxType → String
  | .anonymous => "anonymous"
  | .authenticated => "authenticated"
  | .api => "api"

/-- `JSON.stringify` of a `UserContext`, at the JSON-value level: `userId`
serializes to `null` or a string, optional fields (`userType`, `metadata`)
are omitted when absent, exactly as `JSON.stringify` drops `undefined`
properties. -/
def encodeUC (u : UserContext) : Json :=
  Json.obj
    ([("userId", u.userId.elim Json.null Json.str)]
      ++ (match u.userType with
          | some t => [("userType", Json.str t)]
          | none => [])
      ++ [("context", Json.str (ctxTypeStr u.context))]
      ++ (match u.metadata with
          | some m => [("metadata", Json.obj m)]
          | none => []))

/-- Field lookup in a JSON object. -/
def jsonLookup (fields : List (String × Json)) (k : String) : Option Json :=
  (fields.find? (fun p => p.1 == k)).map Prod.snd

/-- Typed reading of a parsed JSON value as a `UserContext`.  The
TypeScript source performs an unchecked cast (`JSON.parse(h) as
UserContext`); this decoder is its typed shadow and agrees with it on every
value produced by `encodeUC`. -/
def decodeUC : Json → Option UserContext
  | Json.obj fields => do
    let uid ← match jsonLookup fields "userId" with
      | some Json.null => some none
      | some (Json.str s) => some (some s)
      | _ => none
    let uty ← match jsonLookup fields "userType" with
      | none => some none
      | some (Json.str s) => some (some s)
      | _ => none
    let ctx ← match jsonLookup fields "context" with
      | some (Json.str "anonymous") => some CtxType.anonymous
      | some (Json.str "authenticated") => some CtxType.authenticated
      | some (Json.str "api") => some CtxType.api
      | _ => none
    let md ← match jsonLookup fields "metadata" with
      | none => some none
      | some (Json.obj m) => some (some m)
      | _ => none
    pure { userId := uid, userType := uty, context := ctx, metadata := md }
  | _ => none

/-- Round-trip of the JSON-value serialization of a `UserContext`. -/
theorem decodeUC_encodeUC (u : UserContext) : decodeUC (encodeUC u) = some u := by
  obtain ⟨uid, uty, ctx, md⟩ := u
  cases uid <;> cases uty <;> cases md <;> cases ctx <;> rfl

/-! ## Request Context Store (`src/context/request-context.ts`)

The store is Node's `AsyncLocalStorage`; within one asynchronous lineage it
behaves as a single mutable cell holding the active `RequestContext` (or
nothing).  The operations below are the package's accessors over that cell,
with the cell passed explicitly as `Option RequestContext`. -/

/-- `RequestContext`: the per-request scope object. -/
structure RequestContext where
  userContext : Option UserContext
  requestId : String
  startTime : Nat
  metadata : Option (List (String × Json)) := none

/-- `getRequestContext()`: `requestContextStorage.getStore()`, i.e. the
active context of the current asynchronous lineage, if any. -/
def getRequestContext (store : Option RequestContext) : Option RequestContext :=
  store

/-- `getCurrentUserContext()`: `context?.userContext ?? null`. -/
def getCurrentUserContext (store : Option RequestContext) : Option UserContext :=
  match getRequestContext store with
  | some context => context.userContext
  | none => none

/-- `setCurrentUserContext(uc)`: mutates the active context's `userContext`
field in place when one is active; a silent no-op otherwise.  The in-place
mutation appears here as the updated value of the cell. -/
def setCurrentUserContext (userContext : Option UserContext)
    (store : Option RequestContext) : Option RequestContext :=
  match getRequestContext store with
  | some context => some { context with userContext := userContext }
  | none => store

/-! ## Middleware Context Injector (`src/middleware.ts`) -/

/-- The slice of a `NextRequest` the middleware reads: its header map, the
set of cookie names present, `nextUrl.pathname` and the HTTP method. -/
structure NextRequest where
  headers : List (String × String)
  cookieNames : List String
  pathname : String
  method : String

/-- `request.cookies.has(name)`. -/
def cookiesHas (r : NextRequest) (name : String) : Bool :=
  r.cookieNames.contains name

/-- The `userId` extraction of the default resolver:
`headers.get('x-user-id') || headers.get('x-authenticated-user') || null`. -/
def defaultUserId (r : NextRequest) : Option String :=
  jsStrOrOpt (headersGet r.headers "x-user-id")
    (headersGet r.headers "x-authenticated-user")

/-- `hasNextAuthSession` check of the default resolver. -/
def hasNextAuthSession (r : NextRequest) : Bool :=
  cookiesHas r "next-auth.session-token" ||
    cookiesHas r "__Secure-next-auth.session-token"

/-- `hasClerkSession` check of the default resolver. -/
def hasClerkSession (r : NextRequest) : Bool :=
  cookiesHas r "__session" || cookiesHas r "__clerk_db_jwt"

/-- `hasAuthHeader` check of the default resolver. -/
def hasAuthHeader (r : NextRequest) : Bool :=
  headersHas r.headers "authorization"

/-- `defaultGetUserContext(request)`: the built-in resolver used by
`withOutboundIQ` when no custom `getUserContext` option is supplied. -/
def defaultGetUserContext (request : NextRequest) : UserContext :=
  let userId := defaultUserId request
  let context0 : CtxType :=
    if userId.isSome || hasNextAuthSession request || hasClerkSession request
        || hasAuthHeader request then
      CtxType.authenticated
    else
      CtxType.anonymous
  let isApiRoute := strStartsWith request.pathname "/api"
  let context :=
    if isApiRoute && hasAuthHeader request then CtxType.api else context0
  { userId := userId
    context := context
    metadata := some [("path", Json.str request.pathname),
                      ("method", Json.str request.method)] }

/-- Disjunction of all auth signals the default resolver inspects (a truthy
user-id header, a NextAuth or Clerk session cookie, or an authorization
header). -/
def authSignalPresent (r : NextRequest) : Bool :=
  (defaultUserId r).isSome || hasNextAuthSession r || hasClerkSession r
    || hasAuthHeader r

/-- An exclude pattern of `withOutboundIQ`: a literal substring or a RegExp
(modelled by its `test` predicate on the path). -/
inductive ExcludePattern where
  | str (s : String)
  | regex (test : String → Bool)

/-- `url.includes(s)`: substring containment. -/
def strIncludes (url s : String) : Bool :=
  decide (List.IsInfix s.data url.data)

/-- Whether one exclude pattern matches the path. -/
def patternMatches (url : String) : ExcludePattern → Bool
  | .str s => strIncludes url s
  | .regex test => test url

/-- The response slice the injector touches: the
`x-outboundiq-user-context` header slot, carrying (the JSON value of) a
serialized user context when set. -/
structure NextResponseT where
  contextHeader : Option Json := none

/-- `withOutboundIQ(middleware, options)`: bypasses resolution when the
path matches an exclude pattern; otherwise resolves the user context, runs
the inner middleware, and — when the resolved context is non-null — sets
the `x-outboundiq-user-context` response header to its JSON serialization
(`JSON.stringify`, modelled value-level by `encodeUC`). -/
def withOutboundIQ (middleware : NextRequest → NextResponseT)
    (getUserContext : NextRequest → Option UserContext)
    (excludePatterns : List ExcludePattern)
    (request : NextRequest) : NextResponseT :=
  let url := request.pathname
  if excludePatterns.any (patternMatches url) then
    middleware request
  else
    let userContext := getUserContext request
    let response := middleware request
    match userContext with
    | some uc => { response with contextHeader := some (encodeUC uc) }
    | none => response

/-- What a downstream API route sees in the
`x-outboundiq-user-context` request header: absent, present but not valid
JSON (`JSON.parse` throws), or parsed to a JSON value. -/
inductive HeaderJsonValue where
  | missing
  | malformed
  | parsed (j : Json)

/-- The request slice `getUserContextFromRequest` reads. -/
structure ApiRequest where
  contextHeader : HeaderJsonValue

/-- `getUserContextFromRequest(request)` (the spec's `extractFromHeader`):
`null` on a missing header, `null` when `JSON.parse` throws, otherwise the
parsed value read as a `UserContext`.  Total, hence never throws. -/
def getUserContextFromRequest (request : ApiRequest) : Option UserContext :=
  match request.contextHeader with
  | .missing => none
  | .malformed => none
  | .parsed j => decodeUC j

/-- Transport of the injector's response header into the downstream
request: the platform serializes the JSON value and the downstream parse
recovers the same value (`JSON.parse ∘ JSON.stringify = id` on JSON
values). -/
def requestFromResponse (resp : NextResponseT) : ApiRequest :=
  { contextHeader :=
      match resp.contextHeader with
      | none => .missing
      | some j => .parsed j }

/-! ## Tracking Client Facade (`src/edge.ts`) -/

/-- `OutboundIQConfig` as passed to the external client's `init`. -/
structure OutboundIQConfig where
  apiKey : String
  endpoint : Option String
  debug : Bool
  batchSize : Nat
  flushInterval : Nat

/-- The environment variables the facade reads. -/
structure Env where
  OUTBOUNDIQ_KEY : Option String
  OUTBOUNDIQ_URL : Option String := none
  OUTBOUNDIQ_DEBUG : Option String := none

/-- Process-wide facade state: the module-level `isInitialized` flag, the
external client handle observable through `getClient()` (here carrying the
config it was created with), and a log of every `init(...)` call made to
the external library. -/
structure FacadeState where
  isInitialized : Bool
  client : Option OutboundIQConfig
  initCalls : List OutboundIQConfig

/-- The state of a process before any initialization. -/
def initialFacadeState : FacadeState :=
  { isInitialized := false, client := none, initCalls := [] }

/-- The external client's `init(config)`: creates the client (making
`getClient()` non-null) and is logged in `initCalls`. -/
def initClient (cfg : OutboundIQConfig) (s : FacadeState) : FacadeState :=
  { s with client := some cfg, initCalls := s.initCalls ++ [cfg] }

/-- The config `ensureInitialized` builds from the environment:
`batchSize = 1`, `flushInterval = 1000` (send-immediately profile). -/
def ensureConfig (env : Env) (apiKey : String) : OutboundIQConfig :=
  { apiKey := apiKey
    endpoint := env.OUTBOUNDIQ_URL
    debug := env.OUTBOUNDIQ_DEBUG == some "true"
    batchSize := 1
    flushInterval := 1000 }

/-- `ensureInitialized()`: true immediately when the flag is set or a
client already exists; otherwise reads `OUTBOUNDIQ_KEY`, warns and returns
false when it is falsy, and otherwise calls `init` once and sets the
flag. -/
def ensureInitialized (env : Env) (s : FacadeState) : Bool × FacadeState :=
  if s.isInitialized || s.client.isSome then
    (true, s)
  else
    match env.OUTBOUNDIQ_KEY with
    | some apiKey =>
      if apiKey.isEmpty then
        (false, s)
      else
        (true, { initClient (ensureConfig env apiKey) s with isInitialized := true })
    | none => (false, s)

/-- `Partial<OutboundIQConfig>`: an absent field (`none`) is a key not
present on the object. -/
structure PartialConfig where
  apiKey : Option String := none
  endpoint : Option String := none
  debug : Option Bool := none
  batchSize : Option Nat := none
  flushInterval : Option Nat := none

/-- JavaScript `n || d` on a nullable number: `undefined` and `0` are
falsy. -/
def jsNatOr (n : Option Nat) (d : Nat) : Nat :=
  match n with
  | some m => if m = 0 then d else m
  | none => d

/-- The config `initEdge` passes to `init`: the `||`-defaulted fields
(`batchSize = 5` profile), then overridden by `...config` for every key
present on the supplied partial config. -/
def edgeConfig (config : Option PartialConfig) (env : Env) (apiKey : String) :
    OutboundIQConfig :=
  let capiKey := config.bind (·.apiKey)
  let cendpoint := config.bind (·.endpoint)
  let cdebug := config.bind (·.debug)
  let cbatch := config.bind (·.batchSize)
  let cflush := config.bind (·.flushInterval)
  { apiKey := capiKey.getD apiKey
    endpoint :=
      match cendpoint with
      | some e => some e
      | none => jsStrOrOpt cendpoint env.OUTBOUNDIQ_URL
    debug := cdebug.getD (cdebug.getD false || env.OUTBOUNDIQ_DEBUG == some "true")
    batchSize := cbatch.getD (jsNatOr cbatch 5)
    flushInterval := cflush.getD (jsNatOr cflush 1000) }

/-- `initEdge(config)`: no-op when the flag is already set; otherwise
resolves `config?.apiKey || OUTBOUNDIQ_KEY`, warns and returns when that is
falsy, and otherwise calls `init` once with the merged config and sets the
flag. -/
def initEdge (config : Option PartialConfig) (env : Env) (s : FacadeState) :
    FacadeState :=
  if s.isInitialized then
    s
  else
    let apiKey := jsStrOrOpt (config.bind (·.apiKey)) env.OUTBOUNDIQ_KEY
    match apiKey with
    | some k =>
      if k.isEmpty then
        s
      else
        { initClient (edgeConfig config env k) s with isInitialized := true }
    | none => s

/-- One call to the facade's initializers. -/
inductive FacadeCall where
  | ensure
  | edge (config : Option PartialConfig)

/-- State transition of one initializer call. -/
def facadeStep (env : Env) (s : FacadeState) : FacadeCall → FacadeState
  | .ensure => (ensureInitialized env s).2
  | .edge config => initEdge config env s

/-- Run a sequence of initializer calls. -/
def facadeRun (env : Env) (s : FacadeState) (calls : List FacadeCall) :
    FacadeState :=
  calls.foldl (facadeStep env) s

/-- The config the first initializer call passes to `init` (given a truthy
environment key `k`). -/
def firstCallConfig (env : Env) (k : String) : FacadeCall → OutboundIQConfig
  | .ensure => ensureConfig env k
  | .edge config =>
      edgeConfig config env (jsStrOr (config.bind (·.apiKey)) k)

/-! ## Call Normalizer: bodies, records, `trackFetch`, axios interceptors -/

/-- `BODY_MAX_LENGTH` in `src/edge.ts`. -/
def BODY_MAX_LENGTH : Nat := 10000

/-- `BODY_MAX_LENGTH` in the shipped `dist` build of the same module. -/
def BODY_MAX_LENGTH_DIST : Nat := 60000

/-- `s.substring(0, n)`. -/
def jsSubstring (s : String) (n : Nat) : String :=
  ⟨s.data.take n⟩

/-- The truncation applied to body strings:
`s.length > max ? s.substring(0, max) + '...[truncated]' : s`. -/
def truncateString (max : Nat) (s : String) : String :=
  if s.length > max then jsSubstring s max ++ "...[truncated]" else s

/-- The shapes a `RequestInit` body can take at this call site. -/
inductive BodyInit where
  | str (s : String)
  | formData
  | urlSearchParams (encoded : String)
  | binary (byteLength : Nat)
  | other

/-- `getRequestBodyFromInit(init)`: `null` for an absent or falsy body
(the empty string is falsy); strings and `URLSearchParams` renderings are
truncated; `FormData`, binary buffers and unrecognized shapes become
placeholder strings.  The surrounding `try/catch` returns `null`; every
operation here is total, so that branch has no model. -/
def getRequestBodyFromInit (max : Nat) (body : Option BodyInit) :
    Option String :=
  match body with
  | none => none
  | some (.str s) =>
      if s.isEmpty then none else some (truncateString max s)
  | some .formData => some "[FormData]"
  | some (.urlSearchParams encoded) => some (truncateString max encoded)
  | some (.binary byteLength) =>
      some ("[Binary: " ++ toString byteLength ++ " bytes]")
  | some .other => some "[Body]"

/-- A JavaScript throwable: an `Error` carrying a message, or any other
value. -/
inductive Throwable where
  | error (message : String)
  | nonError

/-- The error string recorded for a throwable:
`error instanceof Error ? error.message : 'Unknown error'`. -/
def throwableMessage : Throwable → String
  | .error message => message
  | .nonError => "Unknown error"

/-- The slice of a fetch `Response` the tracker reads: status, headers, and
the text of the cloned body (`none` models a clone/read failure, which
`getResponseBodyForTracking` swallows into `null`). -/
structure FetchResponse where
  status : Nat
  headers : List (String × String)
  bodyText : Option String

/-- The first argument of `trackFetch`: a URL string, a `URL` object, or a
`Request` (carrying its own headers). -/
inductive FetchInput where
  | str (url : String)
  | url (href : String)
  | request (reqUrl : String) (headers : List (String × String))

/-- URL extraction from the input, as `trackFetch` performs it. -/
def fetchInputUrl : FetchInput → String
  | .str u => u
  | .url href => href
  | .request reqUrl _ => reqUrl

/-- The `RequestInit & { userContext? }` argument of `trackFetch`.  The
three accepted header encodings (`Headers`, entry array, plain object) all
normalize to a plain map, modelled directly as one. -/
structure TrackFetchInit where
  method : Option String := none
  headers : List (String × String) := []
  body : Option BodyInit := none
  userContext : Option UserContext := none

/-- `extractRequestHeaders(input, init)`: the init headers, completed by
the `Request` object's own headers for keys that are absent (or falsy) in
the init map. -/
def extractRequestHeaders (input : FetchInput) (init : Option TrackFetchInit) :
    List (String × String) :=
  let headers := (init.map (·.headers)).getD []
  match input with
  | .request _ reqHeaders =>
      headers ++ reqHeaders.filter
        (fun p => !strTruthy (headersGet headers p.1))
  | _ => headers

/-- `ApiCall`: the tracking record handed to the external client's
`track`.  Header maps are recorded as extracted; the external
`sanitizeHeaders`/`safeStringify` helpers of `@outbound_iq/core` (out of
scope, already-string inputs here) are the identity on this slice. -/
structure ApiCall where
  method : String
  url : String
  statusCode : Nat
  duration : Int
  requestHeaders : Option (List (String × String)) := none
  responseHeaders : Option (List (String × String)) := none
  requestBody : Option String := none
  responseBody : Option String := none
  error : Option String := none
  userContext : Option UserContext := none

/-- `trackFetch(input, init)`.  The platform pieces appear as parameters:
`outcome` is what `await fetch(...)` does (resolve or throw), `duration`
the elapsed wall clock.  Returns the value returned (or exception
re-thrown) to the caller, the records submitted via `track`, and the
facade state after the auto-initialization. -/
def trackFetch (env : Env) (s : FacadeState) (input : FetchInput)
    (init : Option TrackFetchInit) (outcome : Except Throwable FetchResponse)
    (duration : Int) :
    Except Throwable FetchResponse × List ApiCall × FacadeState :=
  let (initialized, s) := ensureInitialized env s
  let url := fetchInputUrl input
  let method := jsStrOr (init.bind (·.method)) "GET"
  let userContext := init.bind (·.userContext)
  let requestHeaders := extractRequestHeaders input init
  let requestBody := getRequestBodyFromInit BODY_MAX_LENGTH (init.bind (·.body))
  match outcome with
  | .ok response =>
      if initialized then
        let responseBody := (response.bodyText).map (truncateString BODY_MAX_LENGTH)
        (.ok response,
          [{ method := method.toUpper
             url := url
             statusCode := response.status
             duration := duration
             requestHeaders := some requestHeaders
             responseHeaders := some response.headers
             requestBody := requestBody
             responseBody := responseBody
             error := none
             userContext := userContext }],
          s)
      else
        (.ok response, [], s)
  | .error e =>
      if initialized then
        (.error e,
          [{ method := method.toUpper
             url := url
             statusCode := 0
             duration := duration
             requestHeaders := some requestHeaders
             requestBody := requestBody
             error := some (throwableMessage e)
             userContext := userContext }],
          s)
      else
        (.error e, [], s)

/-! ### Axios interceptor pair (`addAxiosTracking`) -/

/-- The axios request config slice the interceptors read.  `startTime` is
the `metadata.startTime` stamp set by the request interceptor (`none` when
the request interceptor did not run on this config). -/
structure AxiosConfig where
  url : Option String := none
  method : Option String := none
  baseURL : Option String := none
  headers : List (String × String) := []
  data : Option String := none
  startTime : Option Int := none

/-- An axios response. -/
structure AxiosResponseT where
  status : Nat
  config : AxiosConfig
  headers : List (String × String) := []
  data : Option String := none

/-- An axios error: possibly carrying the config and an HTTP response
(axios rejects on non-2xx statuses with `error.response` set). -/
structure AxiosErrorT where
  config : Option AxiosConfig := none
  response : Option AxiosResponseT := none
  message : String

/-- `buildAxiosUrl(config)`: the literal URL when absolute, otherwise
`baseURL + url` (with `'' ` for missing parts). -/
def buildAxiosUrl (config : AxiosConfig) : String :=
  let baseURL := (config.baseURL).getD ""
  let url := (config.url).getD ""
  if strStartsWith url "http://" || strStartsWith url "https://" then url
  else baseURL ++ url

/-- `normalizeAxiosHeaders(h)`: the `toJSON`/`Headers`/plain-object
branches all produce a plain map; `{}` for a missing argument. -/
def normalizeAxiosHeaders (headers : Option (List (String × String))) :
    List (String × String) :=
  headers.getD []

/-- `config.metadata?.startTime ? performance.now() - startTime : 0`
(a stamp of `0` is falsy). -/
def axiosDuration (startTime : Option Int) (now : Int) : Int :=
  match startTime with
  | some t => if t = 0 then 0 else now - t
  | none => 0

/-- The record built by the axios response (success) interceptor. -/
def axiosResponseRecord (options : Option UserContext) (now : Int)
    (response : AxiosResponseT) : ApiCall :=
  { method := (jsStrOr response.config.method "GET").toUpper
    url := buildAxiosUrl response.config
    statusCode := response.status
    duration := axiosDuration response.config.startTime now
    requestHeaders := some (normalizeAxiosHeaders (some response.config.headers))
    responseHeaders := some (normalizeAxiosHeaders (some response.headers))
    requestBody := response.config.data
    responseBody := response.data
    error := none
    userContext := options }

/-- The record built by the axios error interceptor: `error.message` is
always recorded, and `statusCode` is `error.response?.status || 0`. -/
def axiosErrorRecord (options : Option UserContext) (now : Int)
    (error : AxiosErrorT) : ApiCall :=
  { method := (jsStrOr (error.config.bind (·.method)) "GET").toUpper
    url :=
      match error.config with
      | some c => buildAxiosUrl c
      | none => "unknown"
    statusCode := ((error.response).map (·.status)).getD 0
    duration := axiosDuration (error.config.bind (·.startTime)) now
    requestHeaders :=
      some (normalizeAxiosHeaders (error.config.map (·.headers)))
    responseHeaders :=
      some (normalizeAxiosHeaders (error.response.map (·.headers)))
    requestBody := error.config.bind (·.data)
    responseBody := error.response.bind (·.data)
    error := some error.message
    userContext := options }

/-! ## `withUserContext` (package index module) -/

/-- `withUserContext(handler, userContext)`: the wrapped handler calls the
external core's `setUserContext(userContext)`, runs the handler, and in a
`finally` clause calls `setUserContext(null)`.  The core's user-context
cell is threaded explicitly; the handler is any function of that cell
returning a result (value or thrown exception) and the cell state it
leaves behind. -/
def withUserContext {ε α : Type}
    (handler : Option UserContext → Except ε α × Option UserContext)
    (userContext : UserContext) (_entryCtx : Option UserContext) :
    Except ε α × Option UserContext :=
  let afterSet := some userContext
  let r := handler afterSet
  (r.1, none)

/-! ## Helper lemmas -/

/-- Length of a string built from a character list. -/
theorem strLength_mk (l : List Char) : String.length ⟨l⟩ = l.length := rfl

/-- Data of an appended string. -/
theorem strData_append (a b : String) : (a ++ b).data = a.data ++ b.data := by
  cases a
  cases b
  rfl

/-- Length of an appended string. -/
theorem strLength_append (a b : String) :
    (a ++ b).length = a.length + b.length := by
  show (a ++ b).data.length = a.data.length + b.data.length
  rw [strData_append, List.length_append]

/-- A truthy `jsStrOrOpt` result is one of its operands' values. -/
theorem jsStrOrOpt_isSome (a b : Option String) :
    (jsStrOrOpt a b).isSome = (strTruthy a || strTruthy b) := by
  unfold jsStrOrOpt
  cases a <;> cases b <;> simp [strTruthy] <;> split_ifs <;> simp_all

/-! ## Claim theorems -/

/-- C3: for the default resolver, no auth signal yields `anonymous` with a
null `userId`; any auth signal on a non-`/api` path yields `authenticated`;
an authorization header on an `/api`-prefixed path yields `api`. -/
theorem default_resolver_classification (r : NextRequest) :
    (authSignalPresent r = false →
      (defaultGetUserContext r).context = CtxType.anonymous ∧
        (defaultGetUserContext r).userId = none) ∧
    (authSignalPresent r = true → strStartsWith r.pathname "/api" = false →
      (defaultGetUserContext r).context = CtxType.authenticated) ∧
    (hasAuthHeader r = true → strStartsWith r.pathname "/api" = true →
      (defaultGetUserContext r).context = CtxType.api) := by
  refine ⟨?_, ?_, ?_⟩
  · intro h
    simp only [authSignalPresent, Bool.or_eq_false_iff] at h
    obtain ⟨⟨⟨h1, h2⟩, h3⟩, h4⟩ := h
    have huid : defaultUserId r = none := by
      cases hu : defaultUserId r with
      | none => rfl
      | some v => rw [hu] at h1; simp at h1
    constructor <;> simp [defaultGetUserContext, huid, h2, h3, h4]
  · intro h hpath
    simp only [authSignalPresent] at h
    simp [defaultGetUserContext, h, hpath]
  · intro h hpath
    simp [defaultGetUserContext, h, hpath]

/-- C3 witness: concrete requests exercising each classification branch. -/
theorem default_resolver_classification_witness :
    (defaultGetUserContext ⟨[], [], "/home", "GET"⟩).context = CtxType.anonymous ∧
    (defaultGetUserContext ⟨[], [], "/home", "GET"⟩).userId = none ∧
    (defaultGetUserContext ⟨[("x-user-id", "u1")], [], "/dashboard", "GET"⟩).context =
      CtxType.authenticated ∧
    (defaultGetUserContext ⟨[("authorization", "Bearer t")], [], "/api/items", "GET"⟩).context =
      CtxType.api := by
  refine ⟨((default_resolver_classification _).1 (by decide)).1,
    ((default_resolver_classification _).1 (by decide)).2,
    (default_resolver_classification _).2.1 (by decide) (by decide),
    (default_resolver_classification _).2.2 (by decide) (by decide)⟩

/-- C7: `getCurrentUserContext` reads the active context's `userContext`
field (null when no context is active); `setCurrentUserContext` updates
that field when a context is active and is a silent no-op otherwise.  Both
operations are total functions, so neither ever throws. -/
theorem context_store_get_set (store : Option RequestContext)
    (uc : Option UserContext) :
    (∀ ctx, store = some ctx →
      getCurrentUserContext store = ctx.userContext ∧
        setCurrentUserContext uc store = some { ctx with userContext := uc }) ∧
    (store = none →
      getCurrentUserContext store = none ∧
        setCurrentUserContext uc store = none) := by
  constructor
  · rintro ctx rfl
    exact ⟨rfl, rfl⟩
  · rintro rfl
    exact ⟨rfl, rfl⟩

/-- Sample user context used by concrete witnesses. -/
def ucSample : UserContext := { userId := some "u1", context := CtxType.authenticated }

/-- Sample request context used by concrete witnesses. -/
def rcSample : RequestContext :=
  { userContext := some ucSample, requestId := "req_1", startTime := 0 }

/-- C7 witness: the store operations on a concrete active context and on
the empty store. -/
theorem context_store_get_set_witness :
    getCurrentUserContext (some rcSample) = some ucSample ∧
    setCurrentUserContext none (some rcSample) =
      some { rcSample with userContext := none } ∧
    getCurrentUserContext none = none ∧
    setCurrentUserContext none none = none := by
  refine ⟨((context_store_get_set (some rcSample) none).1 rcSample rfl).1,
    ((context_store_get_set (some rcSample) none).1 rcSample rfl).2,
    ((context_store_get_set none none).2 rfl).1,
    ((context_store_get_set none none).2 rfl).2⟩

/-- C10: a handler wrapped by `withUserContext` runs with the core user
context set to the supplied value, the context is reset to null after the
handler on both the return and the throw path, and the handler's value or
exception is passed through unchanged. -/
theorem withUserContext_set_reset_passthrough {ε α : Type}
    (handler : Option UserContext → Except ε α × Option UserContext)
    (uc : UserContext) (entry : Option UserContext) :
    (withUserContext handler uc entry).2 = none ∧
    (∀ v, (handler (some uc)).1 = Except.ok v →
      (withUserContext handler uc entry).1 = Except.ok v) ∧
    (∀ e, (handler (some uc)).1 = Except.error e →
      (withUserContext handler uc entry).1 = Except.error e) := by
  refine ⟨rfl, ?_, ?_⟩
  · intro v hv
    simpa [withUserContext] using hv
  · intro e he
    simpa [withUserContext] using he

/-- C10 witness: a returning handler that reports the context it observed,
and a throwing handler; the wrapper passes both outcomes through and resets
the context to null. -/
theorem withUserContext_set_reset_passthrough_witness :
    (withUserContext (fun c => (Except.ok (ε := Unit) c, c))
        { userId := some "w", context := CtxType.api } none).1 =
      Except.ok (some { userId := some "w", context := CtxType.api }) ∧
    (withUserContext (fun c => (Except.error (α := Unit) "boom", c))
        { userId := some "w", context := CtxType.api } (some { userId := none, context := CtxType.anonymous })).1 =
      Except.error "boom" ∧
    (withUserContext (fun c => (Except.error (α := Unit) "boom", c))
        { userId := some "w", context := CtxType.api } (some { userId := none, context := CtxType.anonymous })).2 =
      none := by
  refine ⟨(withUserContext_set_reset_passthrough _ _ _).2.1 _ rfl,
    (withUserContext_set_reset_passthrough _ _ _).2.2 _ rfl,
    (withUserContext_set_reset_passthrough _ _ _).1⟩

/-- C4: for a request matching no exclude pattern whose resolver returns a
non-null context, extracting the `x-outboundiq-user-context` header that
`withOutboundIQ` set on its response recovers a `UserContext` deep-equal to
the resolved one; a missing or malformed header extracts to null (and the
extractor, being total, never throws). -/
theorem middleware_context_roundtrip
    (middleware : NextRequest → NextResponseT)
    (getUC : NextRequest → Option UserContext)
    (pats : List ExcludePattern) (req : NextRequest) (uc : UserContext)
    (hexcl : pats.any (patternMatches req.pathname) = false)
    (hres : getUC req = some uc) :
    getUserContextFromRequest
        (requestFromResponse (withOutboundIQ middleware getUC pats req)) =
      some uc ∧
    getUserContextFromRequest ⟨HeaderJsonValue.missing⟩ = none ∧
    getUserContextFromRequest ⟨HeaderJsonValue.malformed⟩ = none := by
  refine ⟨?_, rfl, rfl⟩
  simp only [withOutboundIQ, hexcl, hres, if_neg, Bool.false_eq_true,
    not_false_iff, if_false]
  simp [requestFromResponse, getUserContextFromRequest, decodeUC_encodeUC]

/-- C4 witness: a concrete request through the injector with a constant
resolver, then extracted downstream. -/
theorem middleware_context_roundtrip_witness :
    getUserContextFromRequest
        (requestFromResponse
          (withOutboundIQ (fun _ => { contextHeader := none })
            (fun _ => some ucSample) [] ⟨[], [], "/home", "GET"⟩)) =
      some ucSample ∧
    getUserContextFromRequest ⟨HeaderJsonValue.missing⟩ = none ∧
    getUserContextFromRequest ⟨HeaderJsonValue.malformed⟩ = none :=
  middleware_context_roundtrip (fun _ => { contextHeader := none })
    (fun _ => some ucSample) [] ⟨[], [], "/home", "GET"⟩ ucSample rfl rfl

/-- The 70,000-character request body of the spec's truncation scenario. -/
def body70k : String := ⟨List.replicate 70000 'a'⟩

/-- `body70k` has 70,000 characters. -/
theorem body70k_length : body70k.length = 70000 := by
  show (List.replicate 70000 'a').length = 70000
  rw [List.length_replicate]

/-- `body70k` is not the empty string. -/
theorem body70k_ne_empty : body70k.isEmpty = false := by
  cases h : body70k.isEmpty with
  | false => rfl
  | true =>
    have h2 := (String.isEmpty_iff body70k).mp h
    have h70 := body70k_length
    rw [h2] at h70
    exact absurd h70 (by decide)

/-- The truncation suffix is 14 characters long. -/
theorem truncSuffix_length : ("...[truncated]" : String).length = 14 := rfl

/-- Stored length of an over-long body: the first `max` characters plus the
14-character suffix. -/
theorem truncateString_length_of_long (max : Nat) (s : String)
    (h : max < s.length) :
    (truncateString max s).length = max + 14 := by
  unfold truncateString
  rw [if_pos h, strLength_append]
  have h1 : (jsSubstring s max).length = max := by
    show (s.data.take max).length = max
    rw [List.length_take]
    exact min_eq_left h.le
  rw [h1, truncSuffix_length]

/-- The stored body of the spec's scenario (70,000-character string,
maximum 60,000) has length 60,014. -/
theorem scenario_stored_length :
    (getRequestBodyFromInit BODY_MAX_LENGTH_DIST
        (some (BodyInit.str body70k))).map String.length = some 60014 := by
  have hlt : BODY_MAX_LENGTH_DIST < body70k.length := by
    rw [body70k_length]
    norm_num [BODY_MAX_LENGTH_DIST]
  have hbody : getRequestBodyFromInit BODY_MAX_LENGTH_DIST
      (some (BodyInit.str body70k)) =
      some (truncateString BODY_MAX_LENGTH_DIST body70k) := by
    simp [getRequestBodyFromInit, body70k_ne_empty]
  rw [hbody, Option.map_some', truncateString_length_of_long _ _ hlt]
  norm_num [BODY_MAX_LENGTH_DIST]

/-- C6 (amended): a string body at or under the maximum is stored
unmodified; a longer one is stored as its first `max` characters followed
by the exact suffix `"...[truncated]"`, for a stored length of `max + 14`;
in the spec's scenario (70,000-character body, maximum 60,000) the stored
`requestBody` has length 60,014. -/
theorem truncation_amended (max : Nat) (s : String) (hne : s.isEmpty = false) :
    getRequestBodyFromInit max (some (BodyInit.str s)) =
      some (truncateString max s) ∧
    (s.length ≤ max → truncateString max s = s) ∧
    (max < s.length →
      (truncateString max s).length = max + 14 ∧
      ∃ p, truncateString max s = p ++ "...[truncated]") ∧
    (getRequestBodyFromInit BODY_MAX_LENGTH_DIST
        (some (BodyInit.str body70k))).map String.length = some 60014 := by
  refine ⟨?_, ?_, ?_, scenario_stored_length⟩
  · simp [getRequestBodyFromInit, hne]
  · intro hle
    unfold truncateString
    rw [if_neg (by omega)]
  · intro hlt
    refine ⟨truncateString_length_of_long max s hlt, jsSubstring s max, ?_⟩
    unfold truncateString
    rw [if_pos hlt]

/-- C6 witness: the truncation facts at concrete inputs — a short body is
stored unmodified, the scenario body is truncated to length 60,014. -/
theorem truncation_amended_witness :
    getRequestBodyFromInit BODY_MAX_LENGTH_DIST
        (some (BodyInit.str "hello")) = some (truncateString 60000 "hello") ∧
    truncateString 60000 "hello" = "hello" ∧
    (getRequestBodyFromInit BODY_MAX_LENGTH_DIST
        (some (BodyInit.str body70k))).map String.length = some 60014 := by
  have h := truncation_amended BODY_MAX_LENGTH_DIST "hello" (by decide)
  exact ⟨h.1, h.2.1 (by decide), h.2.2.2⟩

/-- C6 counterexample: the claim's concrete figure is wrong — the stored
body of the scenario has length 60,014, not 60,015 (the suffix
`"...[truncated]"` has 14 characters, not 15). -/
theorem truncation_scenario_counterexample :
    (getRequestBodyFromInit BODY_MAX_LENGTH_DIST
        (some (BodyInit.str body70k))).map String.length = some 60014 ∧
    ¬ (getRequestBodyFromInit BODY_MAX_LENGTH_DIST
        (some (BodyInit.str body70k))).map String.length = some 60015 := by
  refine ⟨scenario_stored_length, ?_⟩
  rw [scenario_stored_length]
  simp

/-- An initializer call on an already-initialized process is a no-op. -/
theorem facadeStep_initialized (env : Env) (s : FacadeState)
    (h : s.isInitialized = true) (c : FacadeCall) : facadeStep env s c = s := by
  cases c with
  | ensure => simp [facadeStep, ensureInitialized, h]
  | edge config => simp [facadeStep, initEdge, h]

/-- Any call sequence on an already-initialized process is a no-op. -/
theorem facadeRun_initialized (env : Env) (s : FacadeState)
    (h : s.isInitialized = true) (cs : List FacadeCall) :
    facadeRun env s cs = s := by
  induction cs with
  | nil => rfl
  | cons c cs ih =>
    show facadeRun env (facadeStep env s c) cs = s
    rw [facadeStep_initialized env s h c]
    exact ih

/-- The first initializer call on an uninitialized process with a truthy
environment key initializes exactly once, with that call's config. -/
theorem facadeStep_first (env : Env) (k : String)
    (hk : env.OUTBOUNDIQ_KEY = some k) (hne : k.isEmpty = false)
    (c : FacadeCall) :
    facadeStep env initialFacadeState c =
      { isInitialized := true
        client := some (firstCallConfig env k c)
        initCalls := [firstCallConfig env k c] } := by
  cases c with
  | ensure =>
    simp [facadeStep, ensureInitialized, initialFacadeState, hk, hne,
      initClient, firstCallConfig]
  | edge config =>
    cases hca : config.bind (·.apiKey) with
    | none =>
      simp [facadeStep, initEdge, initialFacadeState, hk, hca, jsStrOrOpt,
        strTruthy, hne, initClient, firstCallConfig, jsStrOr]
    | some a =>
      by_cases ha : a.isEmpty
      · simp [facadeStep, initEdge, initialFacadeState, hk, hca, jsStrOrOpt,
          strTruthy, ha, hne, initClient, firstCallConfig, jsStrOr]
      · simp [facadeStep, initEdge, initialFacadeState, hk, hca, jsStrOrOpt,
          strTruthy, ha, hne, initClient, firstCallConfig, jsStrOr]

/-- C5: from an uninitialized process with an API key available in the
environment, any sequence of two or more initializer calls (in any mix of
`ensureInitialized` and `initEdge`, with any configurations) performs
exactly one underlying `init` call, carrying the first call's
configuration; every later call is a no-op, so the first caller's
configuration wins. -/
theorem initialization_idempotent (env : Env) (k : String)
    (hk : env.OUTBOUNDIQ_KEY = some k) (hne : k.isEmpty = false)
    (c1 c2 : FacadeCall) (rest : List FacadeCall) :
    (facadeRun env initialFacadeState (c1 :: c2 :: rest)).initCalls =
      [firstCallConfig env k c1] ∧
    facadeRun env initialFacadeState (c1 :: c2 :: rest) =
      facadeStep env initialFacadeState c1 := by
  have h1 := facadeStep_first env k hk hne c1
  have hinit : (facadeStep env initialFacadeState c1).isInitialized = true := by
    rw [h1]
  have hrun : facadeRun env initialFacadeState (c1 :: c2 :: rest) =
      facadeRun env (facadeStep env initialFacadeState c1) (c2 :: rest) := rfl
  rw [hrun, facadeRun_initialized env _ hinit]
  exact ⟨by rw [h1], rfl⟩

/-- Environment with an API key, used by concrete witnesses. -/
def envSample : Env := { OUTBOUNDIQ_KEY := some "test-key" }

/-- C5 witness: two consecutive `ensureInitialized` calls, then an
`initEdge` call with a different configuration, from a fresh process with a
key in the environment: one `init`, configured by the first call. -/
theorem initialization_idempotent_witness :
    (facadeRun envSample initialFacadeState
        [FacadeCall.ensure, FacadeCall.ensure,
         FacadeCall.edge (some { batchSize := some 99 })]).initCalls =
      [firstCallConfig envSample "test-key" FacadeCall.ensure] ∧
    facadeRun envSample initialFacadeState
        [FacadeCall.ensure, FacadeCall.ensure,
         FacadeCall.edge (some { batchSize := some 99 })] =
      facadeStep envSample initialFacadeState FacadeCall.ensure :=
  initialization_idempotent envSample "test-key" rfl rfl FacadeCall.ensure
    FacadeCall.ensure [FacadeCall.edge (some { batchSize := some 99 })]

/-- `ensureInitialized` on an already-initialized process returns true and
changes nothing. -/
theorem ensureInitialized_of_flag (env : Env) (s : FacadeState)
    (h : s.isInitialized = true) : ensureInitialized env s = (true, s) := by
  simp [ensureInitialized, h]

/-- `ensureInitialized` with no key, on a fresh process: false, no init. -/
theorem ensureInitialized_no_key (env : Env) (s : FacadeState)
    (hk : env.OUTBOUNDIQ_KEY = none) (hflag : s.isInitialized = false)
    (hclient : s.client = none) : ensureInitialized env s = (false, s) := by
  simp [ensureInitialized, hk, hflag, hclient]

/-- `trackFetch` passes the fetch outcome through unchanged, and the
status/error pair of each submitted record is determined by the branch:
the response's status with no error on success, zero with the throwable's
message on failure; no record when tracking is disabled. -/
theorem trackFetch_branches (env : Env) (s : FacadeState) (input : FetchInput)
    (init : Option TrackFetchInit) (duration : Int) :
    (∀ outcome, (trackFetch env s input init outcome duration).1 = outcome) ∧
    (∀ resp,
      ((trackFetch env s input init (Except.ok resp) duration).2.1).map
          (fun r => (r.statusCode, r.error)) =
        if (ensureInitialized env s).1 then [(resp.status, none)] else []) ∧
    (∀ e,
      ((trackFetch env s input init (Except.error e) duration).2.1).map
          (fun r => (r.statusCode, r.error)) =
        if (ensureInitialized env s).1 then [(0, some (throwableMessage e))]
        else []) := by
  rcases hE : ensureInitialized env s with ⟨b, s2⟩
  refine ⟨?_, ?_, ?_⟩
  · intro outcome
    cases outcome <;> cases b <;> simp [trackFetch, hE]
  · intro resp
    cases b <;> simp [trackFetch, hE]
  · intro e
    cases b <;> simp [trackFetch, hE]

/-- C8: with the API-key environment variable absent and the process not
yet initialized, `ensureInitialized` returns false without changing the
state (and, being a total function, without throwing), and every
`trackFetch` call performs the underlying fetch, returning (or re-throwing)
its real outcome while submitting no tracking record. -/
theorem missing_key_disables_tracking (env : Env) (s : FacadeState)
    (hk : env.OUTBOUNDIQ_KEY = none) (hflag : s.isInitialized = false)
    (hclient : s.client = none) :
    ensureInitialized env s = (false, s) ∧
    (∀ input init outcome duration,
      (trackFetch env s input init outcome duration).1 = outcome ∧
      (trackFetch env s input init outcome duration).2.1 = []) := by
  have hE := ensureInitialized_no_key env s hk hflag hclient
  refine ⟨hE, fun input init outcome duration => ⟨?_, ?_⟩⟩
  · cases outcome <;> simp [trackFetch, hE]
  · cases outcome <;> simp [trackFetch, hE]

/-- C8 witness: a keyless environment, a successful and a failing fetch. -/
theorem missing_key_disables_tracking_witness :
    ensureInitialized { OUTBOUNDIQ_KEY := none } initialFacadeState =
      (false, initialFacadeState) ∧
    (trackFetch { OUTBOUNDIQ_KEY := none } initialFacadeState
        (FetchInput.str "https://api.example.com/data") none
        (Except.ok { status := 200, headers := [], bodyText := some "ok" })
        3).1 =
      Except.ok { status := 200, headers := [], bodyText := some "ok" } ∧
    (trackFetch { OUTBOUNDIQ_KEY := none } initialFacadeState
        (FetchInput.str "https://api.example.com/data") none
        (Except.error (Throwable.error "connection refused")) 3).2.1 = [] := by
  have h := missing_key_disables_tracking { OUTBOUNDIQ_KEY := none }
    initialFacadeState rfl rfl rfl
  exact ⟨h.1,
    (h.2 (FetchInput.str "https://api.example.com/data") none
      (Except.ok { status := 200, headers := [], bodyText := some "ok" }) 3).1,
    (h.2 (FetchInput.str "https://api.example.com/data") none
      (Except.error (Throwable.error "connection refused")) 3).2⟩

/-- Facade state after one `ensureInitialized` call in `envSample`. -/
def sInit : FacadeState := facadeStep envSample initialFacadeState FacadeCall.ensure

/-- C2 (amended): when the underlying fetch throws while tracking is
active, `trackFetch` submits exactly one record, with `statusCode = 0` and
an `error` string equal to the thrown Error's message (which may be empty)
or the fixed string "Unknown error" for a non-Error throwable, and then
re-throws the very same exception to the caller. -/
theorem trackFetch_failure_amended (env : Env) (s : FacadeState)
    (input : FetchInput) (init : Option TrackFetchInit) (e : Throwable)
    (duration : Int) (hflag : s.isInitialized = true) :
    (trackFetch env s input init (Except.error e) duration).1 =
      Except.error e ∧
    ((trackFetch env s input init (Except.error e) duration).2.1).map
        (fun r => (r.statusCode, r.error)) =
      [(0, some (throwableMessage e))] ∧
    throwableMessage Throwable.nonError = "Unknown error" := by
  have hE := ensureInitialized_of_flag env s hflag
  have h := trackFetch_branches env s input init duration
  refine ⟨h.1 (Except.error e), ?_, rfl⟩
  rw [h.2.2 e, hE]
  rfl

/-- C2 witness: a failing fetch with a concrete message, on an initialized
process. -/
theorem trackFetch_failure_amended_witness :
    (trackFetch envSample sInit (FetchInput.str "https://api.example.com/data")
        none (Except.error (Throwable.error "connection refused")) 3).1 =
      Except.error (Throwable.error "connection refused") ∧
    ((trackFetch envSample sInit (FetchInput.str "https://api.example.com/data")
        none (Except.error (Throwable.error "connection refused")) 3).2.1).map
        (fun r => (r.statusCode, r.error)) =
      [(0, some (throwableMessage (Throwable.error "connection refused")))] ∧
    throwableMessage Throwable.nonError = "Unknown error" :=
  trackFetch_failure_amended envSample sInit
    (FetchInput.str "https://api.example.com/data") none
    (Throwable.error "connection refused") 3 rfl

/-- C2 counterexample: a thrown `Error` whose `message` is the empty string
yields a record whose `error` field is the empty string — present, but not
a non-empty string as the claim asserts. -/
theorem trackFetch_empty_error_counterexample :
    ((trackFetch envSample sInit (FetchInput.str "https://api.example.com/data")
        none (Except.error (Throwable.error "")) 3).2.1).map (fun r => r.error) =
      [some ""] ∧
    ("" : String).isEmpty = true := by
  constructor
  · rfl
  · rfl

/-- C1 (amended): every `trackFetch` record satisfies `statusCode = 0`
exactly when `error` is present, provided successful responses carry a
non-zero status; the axios response interceptor's records carry no error
and satisfy the same equivalence under the same proviso; the axios error
interceptor's records always carry an `error`, but their `statusCode` is
`error.response?.status || 0`, so an error with an attached non-zero-status
response has a non-zero `statusCode` together with a present `error`, and
the equivalence holds for them only when no response (or a zero status) is
attached. -/
theorem statusCode_error_invariant_amended :
    (∀ env s input init resp duration, resp.status ≠ 0 →
      ((trackFetch env s input init (Except.ok resp) duration).2.1).all
          (fun r => (r.statusCode == 0) == r.error.isSome) = true) ∧
    (∀ env s input init e duration,
      ((trackFetch env s input init (Except.error e) duration).2.1).all
          (fun r => r.statusCode == 0 && r.error.isSome) = true) ∧
    (∀ options now resp, resp.status ≠ 0 →
      ((axiosResponseRecord options now resp).statusCode = 0 ↔
        (axiosResponseRecord options now resp).error.isSome = true)) ∧
    (∀ options now err,
      (axiosErrorRecord options now err).error.isSome = true ∧
      (axiosErrorRecord options now err).statusCode =
        ((err.response).map (fun r => r.status)).getD 0) := by
  refine ⟨?_, ?_, ?_, ?_⟩
  · intro env s input init resp duration hne
    rcases hE : ensureInitialized env s with ⟨b, s2⟩
    cases b <;> simp [trackFetch, hE, Nat.pos_of_ne_zero, hne]
  · intro env s input init e duration
    rcases hE : ensureInitialized env s with ⟨b, s2⟩
    cases b <;> simp [trackFetch, hE]
  · intro options now resp hne
    constructor
    · intro h
      exact absurd h hne
    · intro h
      simp [axiosResponseRecord] at h
  · intro options now err
    exact ⟨rfl, rfl⟩

/-- Concrete axios error carrying a 500 response (axios rejects on non-2xx
statuses with `error.response` populated). -/
def axiosErr500 : AxiosErrorT :=
  { config := some { url := some "https://api.example.com/users"
                     method := some "get", startTime := some 5 }
    response := some { status := 500
                       config := { url := some "https://api.example.com/users" } }
    message := "Request failed with status code 500" }

/-- C1 counterexample: the record the axios error interceptor builds for an
error carrying a 500 response has `error` present and `statusCode = 500`,
refuting the claimed equivalence between `statusCode === 0` and the
presence of `error`. -/
theorem statusCode_error_counterexample :
    (axiosErrorRecord none 10 axiosErr500).error.isSome = true ∧
    (axiosErrorRecord none 10 axiosErr500).statusCode = 500 ∧
    ¬ ((axiosErrorRecord none 10 axiosErr500).statusCode = 0 ↔
        (axiosErrorRecord none 10 axiosErr500).error.isSome = true) := by
  refine ⟨rfl, rfl, fun h => ?_⟩
  have h0 : (axiosErrorRecord none 10 axiosErr500).statusCode = 0 := h.mpr rfl
  rw [show (axiosErrorRecord none 10 axiosErr500).statusCode = 500 from rfl] at h0
  exact absurd h0 (by decide)

/-- C1 witness: the amended invariant at concrete inputs — a 200 success
and a thrown failure through `trackFetch`, a 200 axios response, and the
500-response axios error. -/
theorem statusCode_error_invariant_amended_witness :
    ((trackFetch envSample sInit (FetchInput.str "https://api.example.com/data")
        none (Except.ok { status := 200, headers := [], bodyText := some "ok" })
        3).2.1).all (fun r => (r.statusCode == 0) == r.error.isSome) = true ∧
    ((trackFetch envSample sInit (FetchInput.str "https://api.example.com/data")
        none (Except.error (Throwable.error "connection refused")) 3).2.1).all
        (fun r => r.statusCode == 0 && r.error.isSome) = true ∧
    ((axiosResponseRecord none 10
        { status := 200, config := { url := some "https://api.example.com/users" } }).statusCode = 0 ↔
      (axiosResponseRecord none 10
        { status := 200, config := { url := some "https://api.example.com/users" } }).error.isSome = true) ∧
    (axiosErrorRecord none 10 axiosErr500).error.isSome = true :=
  ⟨statusCode_error_invariant_amended.1 envSample sInit
      (FetchInput.str "https://api.example.com/data") none
      { status := 200, headers := [], bodyText := some "ok" } 3 (by decide),
    statusCode_error_invariant_amended.2.1 envSample sInit
      (FetchInput.str "https://api.example.com/data") none
      (Throwable.error "connection refused") 3,
    statusCode_error_invariant_amended.2.2.1 none 10
      { status := 200, config := { url := some "https://api.example.com/users" } }
      (by decide),
    (statusCode_error_invariant_amended.2.2.2 none 10 axiosErr500).1⟩

end OutboundIQ
